import Mathlib

/-!
# Verification of `connector_twilio` — `send_sms.py`

Shallow embedding of `src/connector_twilio/commands/send_sms.py`:

* `_extract_value` — the configuration-value unwrapper (duck-typed attribute
  probing), modelled over an explicit `PyValue` type of Python runtime values.
* `SendSMSCommand._validate_phone_number` — the E.164 validator built on
  `re.match(r'^\+?[1-9]\d{1,14}$', s)`.  Python `re` semantics are modelled
  faithfully for this pattern: `$` matches at the end of the string or just
  before a single trailing newline; `\d` is modelled as an ASCII decimal digit.
* `SendSMSCommand.__init__` / `SendSMSCommand.execute` — construction and
  execution, with the Twilio client modelled as an oracle (`Provider`) and the
  wall clock (`datetime.utcnow().isoformat()`) as an explicit `now : String`
  input.  `execute` additionally records the list of `messages.create` calls it
  issues so that ordering invariants ("validate before call") can be stated.
-/

namespace ConnectorTwilio

/-! ## Python runtime values for `_extract_value` -/

/-- Result of reading one attribute of a wrapper object.
`strA s` — a non-callable attribute that is the string `s`;
`otherA` — a non-callable attribute of some non-string type;
`callA r` — a callable attribute: `r = none` means the call raises,
`r = some none` means it returns a non-string value, and
`r = some (some s)` means it returns the string `s`. -/
inductive AttrVal where
  | strA (s : String)
  | otherA
  | callA (r : Option (Option String))
  deriving Repr, DecidableEq

/-- A Python value as seen by `_extract_value`: a `str`, an `int`, a `bool`,
a `float` (opaque, carrying its `str(...)` rendering), or some other object,
carrying its attribute table (attribute name ↦ attribute) and its `str(...)`
rendering. -/
inductive PyValue where
  | str (s : String)
  | int (n : Int)
  | bool (b : Bool)
  | float (strRepr : String)
  | obj (attrs : List (String × AttrVal)) (strRepr : String)
  deriving Repr, DecidableEq

/-- Python's `str(value)` for the values modelled by `PyValue`. -/
def pyStr : PyValue → String
  | .str s => s
  | .int n => toString n
  | .bool b => if b then "True" else "False"
  | .float r => r
  | .obj _ r => r

/-- The attribute names probed by `_extract_value`, in source order:
`['value', '_value', 'data', '_data', 'get_value']`. -/
def probeNames : List String := ["value", "_value", "data", "_data", "get_value"]

/-- The body of the `for attr in [...]` loop of `_extract_value`:
skip a missing attribute (`hasattr` false); for a callable attribute call it
and return the result when it is a string; return a plain string attribute;
on any other value or any raised exception continue with the next name. -/
def probeLoop (attrs : List (String × AttrVal)) : List String → Option String
  | [] => none
  | name :: rest =>
    match attrs.lookup name with
    | none => probeLoop attrs rest
    | some (.strA s) => some s
    | some (.callA (some (some s))) => some s
    | some _ => probeLoop attrs rest

/-- `_extract_value` from `send_sms.py` (lines 12–38): a string is returned
as-is; an `int`, `float` or `bool` is rendered with `str`; any other object is
probed for `value`, `_value`, `data`, `_data`, `get_value` in order, and the
first string obtained (directly, or by calling a callable attribute) is
returned, with `str(value)` as the last resort. -/
def extract_value : PyValue → String
  | .str s => s
  | .int n => toString n
  | .bool b => if b then "True" else "False"
  | .float r => r
  | .obj attrs strRepr => (probeLoop attrs probeNames).getD strRepr

/-- Spec-side description of the probing phase: the first name among
`probeNames` whose attribute yields a string — directly when the attribute is
a plain string, or by calling it when it is callable and the call returns a
string. -/
def attrString : AttrVal → Option String
  | .strA s => some s
  | .callA (some (some s)) => some s
  | _ => none

/-- Spec-side description of `_extract_value` on wrapper objects: the first
string obtained while probing the attribute names in order. -/
def firstProbedString (attrs : List (String × AttrVal)) : Option String :=
  probeNames.findSome? fun n => (attrs.lookup n).bind attrString

/-! ## The E.164 validator -/

/-- `[1-9]\d{1,14}` against a whole character list: a nonzero ASCII digit
followed by 1 to 14 ASCII digits. -/
def digitsPart (cs : List Char) : Bool :=
  match cs with
  | c :: rest =>
    ('1' ≤ c && c ≤ '9') && decide (1 ≤ rest.length) && decide (rest.length ≤ 14)
      && rest.all fun d => '0' ≤ d && d ≤ '9'
  | [] => false

/-- `\+?[1-9]\d{1,14}` against a whole character list: the optional `+` is
taken exactly when present (when the first character is `+` the regex cannot
match without consuming it, since `[1-9]` never matches `+`). -/
def e164Chars (cs : List Char) : Bool :=
  match cs with
  | c :: rest => if c == '+' then digitsPart rest else digitsPart (c :: rest)
  | [] => false

/-- Truthiness of `re.match(r'^\+?[1-9]\d{1,14}$', s)`: in Python (without
`re.MULTILINE`) `$` matches at the end of the string or just before a newline
that is the last character, so the pattern matches `s` exactly when the core
matches all of `s`, or all of `s` minus a single trailing newline. -/
def matchesE164 (s : String) : Bool :=
  e164Chars s.data || (s.data.getLast? == some '\n' && e164Chars s.data.dropLast)

/-- `phone_number.startswith('+')`. -/
def startsWithPlus (cs : List Char) : Bool :=
  match cs with
  | c :: _ => c == '+'
  | [] => false

/-- `SendSMSCommand._validate_phone_number` (lines 60–78): on a regex
mismatch raise `ValueError` with the message naming the offending value and
the expected format; otherwise return the number, prefixed with `+` when the
`+` is absent. -/
def validate_phone_number (phone_number : String) : Except String String :=
  if matchesE164 phone_number then
    .ok (if startsWithPlus phone_number.data then phone_number else "+" ++ phone_number)
  else
    .error ("Invalid phone number format: " ++ phone_number
      ++ ". Expected E.164 format (e.g., +1234567890)")

/-! ## The command: provider oracle, construction, execution -/

/-- A `TwilioRestException` as the command observes it: its numeric `code`,
its `msg`, and its Python `str(e)` rendering (used when the construction-time
failure message is built with an f-string). -/
structure TwilioErr where
  code : Int
  msg : String
  strRepr : String
  deriving Repr, DecidableEq

/-- Outcome of one `client.messages.create(body=…, from_=…, to=…)` call:
success with a message `sid` and delivery `status`, a raised
`TwilioRestException`, or a raised exception of some other class (carrying
`type(e).__name__` and `str(e)`). -/
inductive SendOutcome where
  | ok (sid : String) (status : String)
  | twilioErr (e : TwilioErr)
  | otherExc (typeName : String) (msg : String)

/-- The remote provider as an oracle: the outcome of the construction-time
`client.api.accounts(sid).fetch()` (`some e` models a raised
`TwilioRestException e`), and the outcome of each send as a function of
`(body, from_, to)`. -/
structure Provider where
  fetchOutcome : Option TwilioErr
  send : String → String → String → SendOutcome

/-- How construction fails: `validationError` is the `ValueError` raised by
`_validate_phone_number` on the sender number (it propagates out of
`__init__`); `configurationError` is the `ValueError` raised at line 58 after
a `TwilioRestException` from the credential check — the "ConfigurationError"
category of the specification. -/
inductive InitError where
  | validationError (msg : String)
  | configurationError (msg : String)
  deriving Repr, DecidableEq

/-- The state of a constructed `SendSMSCommand`. -/
structure SendSMSCommand where
  account_sid : String
  auth_token : String
  from_phone_number : String
  client : Provider

/-- `SendSMSCommand.__init__` (lines 46–58): unwrap the three parameters,
validate and normalize the sender number, then validate the credentials by
fetching the account; a `TwilioRestException e` there is re-raised as
`ValueError(f"Invalid Twilio credentials: {e}")`. -/
def SendSMSCommand.init (provider : Provider)
    (account_sid auth_token from_phone_number : PyValue) :
    Except InitError SendSMSCommand :=
  let sid := extract_value account_sid
  let tok := extract_value auth_token
  match validate_phone_number (extract_value from_phone_number) with
  | .error m => .error (.validationError m)
  | .ok fromNum =>
    match provider.fetchOutcome with
    | some e => .error (.configurationError ("Invalid Twilio credentials: " ++ e.strRepr))
    | none =>
      .ok { account_sid := sid, auth_token := tok
            from_phone_number := fromNum, client := provider }

/-- A value in the result dictionary: a JSON string or a JSON number
(`error_code` is the provider's numeric code; every other field is a string). -/
inductive JsonVal where
  | s (v : String)
  | i (v : Int)
  deriving Repr, DecidableEq

/-- The `CommandResultDictV1` mapping returned by `execute`: exactly the
top-level keys `response` (a nested mapping), `status` and `mimetype`. -/
structure CommandResultDict where
  response : List (String × JsonVal)
  status : Nat
  mimetype : String
  deriving Repr, DecidableEq

/-- One `client.messages.create` invocation as issued by `execute`. -/
structure SendCall where
  body : String
  from_ : String
  «to» : String
  deriving Repr, DecidableEq

/-- What one run of `execute` produces: the returned dictionary together with
the list of send calls issued to the provider (in order). -/
structure ExecOutcome where
  result : CommandResultDict
  sendCalls : List SendCall
  deriving Repr, DecidableEq

/-- `SendSMSCommand.execute` (lines 80–156).  Unwrap the two parameters,
validate and normalize the recipient, issue the one send call, and map the
outcome: success → the `status 200` envelope (lines 111–122); a
`TwilioRestException` → the `status 400` provider-error envelope (lines
123–134); the `ValueError` from validation → the `status 400`
validation-error envelope (lines 135–145); any other exception → the
`status 500` catch-all envelope (lines 146–156).  `now` is the value of
`datetime.utcnow().isoformat()` for this run. -/
def SendSMSCommand.execute (cmd : SendSMSCommand)
    (to_phone_number message_body : PyValue) (now : String) : ExecOutcome :=
  let toStr := extract_value to_phone_number
  let body := extract_value message_body
  match validate_phone_number toStr with
  | .error m =>
    { result :=
        { response :=
            [("error_type", .s "ValueError"), ("error_message", .s m),
             ("timestamp", .s now)]
          status := 400, mimetype := "application/json" }
      sendCalls := [] }
  | .ok validated_to =>
    let call : SendCall :=
      { body := body, from_ := cmd.from_phone_number, «to» := validated_to }
    match cmd.client.send body cmd.from_phone_number validated_to with
    | .ok sid status =>
      { result :=
          { response :=
              [("message_sid", .s sid), ("to", .s validated_to),
               ("from", .s cmd.from_phone_number), ("status_code", .s status),
               ("timestamp", .s now),
               ("details", .s ("Message sent to " ++ validated_to))]
            status := 200, mimetype := "application/json" }
        sendCalls := [call] }
    | .twilioErr e =>
      { result :=
          { response :=
              [("error_type", .s "TwilioRestException"), ("error_code", .i e.code),
               ("error_message", .s e.msg), ("timestamp", .s now)]
            status := 400, mimetype := "application/json" }
        sendCalls := [call] }
    | .otherExc typeName m =>
      { result :=
          { response :=
              [("error_type", .s typeName), ("error_message", .s m),
               ("timestamp", .s now)]
            status := 500, mimetype := "application/json" }
        sendCalls := [call] }

/-! ## Stub providers and commands used by the witnesses -/

/-- A provider that accepts authentication and accepts every send,
echoing a fixed message id and status. -/
def stubOk : Provider :=
  { fetchOutcome := none, send := fun _ _ _ => .ok "SM123" "queued" }

/-- The command obtained by constructing against `stubOk` with sender
`"15551234567"`. -/
def cmdStub : SendSMSCommand :=
  { account_sid := "sid", auth_token := "tok"
    from_phone_number := "+15551234567", client := stubOk }

/-- A provider that accepts authentication but rejects every send with
`TwilioRestException` code 21211 ("invalid To number"). -/
def stubReject : Provider :=
  { fetchOutcome := none
    send := fun _ _ _ => .twilioErr ⟨21211, "invalid To number", "HTTP 400: 21211"⟩ }

/-- The command obtained by constructing against `stubReject`. -/
def cmdReject : SendSMSCommand :=
  { account_sid := "sid", auth_token := "tok"
    from_phone_number := "+15551234567", client := stubReject }

/-- A provider whose send raises an exception that is neither a
`TwilioRestException` nor a `ValueError`. -/
def stubCrash : Provider :=
  { fetchOutcome := none
    send := fun _ _ _ => .otherExc "ConnectionError" "connection reset" }

/-- The command obtained by constructing against `stubCrash`. -/
def cmdCrash : SendSMSCommand :=
  { account_sid := "sid", auth_token := "tok"
    from_phone_number := "+15551234567", client := stubCrash }

/-- A provider that rejects authentication at the construction-time fetch. -/
def stubBadAuth : Provider :=
  { fetchOutcome := some ⟨20003, "Authenticate", "HTTP 401: 20003 Authenticate"⟩
    send := fun _ _ _ => .ok "SM123" "queued" }

/-! ## Helper lemmas about the validator -/

/-- On a list not starting with `+`, the optional-`+` core is the digits
core. -/
lemma e164Chars_of_not_plus {cs : List Char} (h : startsWithPlus cs = false) :
    e164Chars cs = digitsPart cs := by
  cases cs with
  | nil => rfl
  | cons c rest =>
    simp only [startsWithPlus] at h
    simp [e164Chars, h]

/-- The digits core never matches the empty list. -/
lemma digitsPart_nil : digitsPart [] = false := rfl

/-- Prefixing `+` to a string gives the `+`-cons character list. -/
lemma data_plus_append (s : String) : ("+" ++ s).data = '+' :: s.data := by
  rw [String.data_append]
  rfl

/-- A match of the pattern survives prefixing `+` to a string that does not
already start with `+`. -/
lemma matchesE164_plus {s : String} (hp : startsWithPlus s.data = false)
    (hm : matchesE164 s = true) : matchesE164 ("+" ++ s) = true := by
  unfold matchesE164 at hm ⊢
  rw [data_plus_append]
  rcases Bool.or_eq_true_iff.mp hm with hcore | htail
  · -- the core matched the whole string
    refine Bool.or_eq_true_iff.mpr (Or.inl ?_)
    rw [e164Chars_of_not_plus hp] at hcore
    simp [e164Chars, hcore]
  · -- the core matched the string minus a trailing newline
    refine Bool.or_eq_true_iff.mpr (Or.inr ?_)
    rcases Bool.and_eq_true_iff.mp htail with ⟨hlast, hdrop⟩
    cases hsd : s.data with
    | nil => rw [hsd] at hlast; simp at hlast
    | cons c l =>
      rw [hsd] at hlast hdrop hp
      simp only [startsWithPlus] at hp
      refine Bool.and_eq_true_iff.mpr ⟨?_, ?_⟩
      · rw [List.getLast?_cons_cons]
        exact hlast
      · cases l with
        | nil =>
          -- `dropLast [c] = []` and the core never matches the empty list
          simp [List.dropLast, e164Chars] at hdrop
        | cons d l' =>
          have hdl : ('+' :: c :: d :: l').dropLast = '+' :: (c :: d :: l').dropLast := rfl
          rw [hdl]
          have hcd : (c :: d :: l').dropLast = c :: (d :: l').dropLast := rfl
          rw [hcd] at hdrop ⊢
          have hp' : startsWithPlus (c :: (d :: l').dropLast) = false := by
            simp only [startsWithPlus]; exact hp
          rw [e164Chars_of_not_plus hp'] at hdrop
          simp [e164Chars, hdrop]

/-- Unfolding of a successful validation: the pattern matched and the result
is the input, `+`-prefixed when the `+` was absent. -/
lemma validate_ok_iff {s t : String} :
    validate_phone_number s = .ok t ↔
      matchesE164 s = true ∧
        t = (if startsWithPlus s.data then s else "+" ++ s) := by
  unfold validate_phone_number
  split
  · constructor
    · intro h; exact ⟨by assumption, by cases h; rfl⟩
    · intro ⟨_, ht⟩; rw [ht]
  · constructor
    · intro h; cases h
    · intro ⟨hm, _⟩
      simp_all

/-- Every output of the validator starts with `+` and is a fixed point of the
validator. -/
lemma validate_ok_norm {s t : String} (h : validate_phone_number s = .ok t) :
    startsWithPlus t.data = true ∧ validate_phone_number t = .ok t := by
  rcases validate_ok_iff.mp h with ⟨hm, ht⟩
  by_cases hp : startsWithPlus s.data = true
  · rw [if_pos hp] at ht
    subst ht
    exact ⟨hp, validate_ok_iff.mpr ⟨hm, by rw [if_pos hp]⟩⟩
  · have hp' : startsWithPlus s.data = false := Bool.not_eq_true _ ▸ Bool.of_not_eq_true hp
    rw [if_neg (by simp [hp'])] at ht
    subst ht
    have hplus : startsWithPlus ("+" ++ s).data = true := by
      rw [data_plus_append]; rfl
    exact ⟨hplus,
      validate_ok_iff.mpr ⟨matchesE164_plus hp' hm, by rw [if_pos hplus]⟩⟩

/-- A constructed command stores the validated, normalized sender number. -/
lemma init_ok_from {provider : Provider} {a b f : PyValue} {cmd : SendSMSCommand}
    (h : SendSMSCommand.init provider a b f = .ok cmd) :
    validate_phone_number (extract_value f) = .ok cmd.from_phone_number := by
  unfold SendSMSCommand.init at h
  cases hv : validate_phone_number (extract_value f) with
  | error m => rw [hv] at h; cases h
  | ok fromNum =>
    rw [hv] at h
    cases hf : provider.fetchOutcome with
    | some e => rw [hf] at h; cases h
    | none => rw [hf] at h; cases h; rfl

/-! ## Claims -/

/-- **C1.** For every string matching `^\+?[1-9]\d{1,14}$` (as `re.match`
interprets it), `_validate_phone_number` returns that same string with a
leading `+` guaranteed — prefixing `+` exactly when absent; for every string
not matching, it raises `ValueError` with the message naming the offending
value and the expected E.164 format.  In particular `"15551234567"` is
accepted and returns `"+15551234567"`. -/
theorem C1_validator_contract (s : String) :
    (matchesE164 s = true →
      ∃ t, validate_phone_number s = .ok t ∧
        t = (if startsWithPlus s.data then s else "+" ++ s) ∧
        startsWithPlus t.data = true) ∧
    (matchesE164 s = false →
      validate_phone_number s = .error ("Invalid phone number format: " ++ s
        ++ ". Expected E.164 format (e.g., +1234567890)")) ∧
    validate_phone_number "15551234567" = .ok "+15551234567" := by
  refine ⟨?_, ?_, by rfl⟩
  · intro hm
    refine ⟨if startsWithPlus s.data then s else "+" ++ s,
      validate_ok_iff.mpr ⟨hm, rfl⟩, rfl, ?_⟩
    exact (validate_ok_norm (validate_ok_iff.mpr ⟨hm, rfl⟩)).1
  · intro hm
    unfold validate_phone_number
    rw [hm]
    rfl

/-- Witness for C1 at the concrete input `"15551234567"`. -/
theorem C1_validator_contract_witness :
    matchesE164 "15551234567" = true ∧
    validate_phone_number "15551234567" = .ok "+15551234567" := by
  refine ⟨by decide, ?_⟩
  obtain ⟨t, hok, ht, _⟩ := (C1_validator_contract "15551234567").1 (by decide)
  have : t = "+15551234567" := by rw [ht]; decide
  rw [this] at hok
  exact hok

/-- **C2.** Normalization is idempotent: every output of the validator is
accepted unchanged by a second application of the validator. -/
theorem C2_normalization_idempotent (s t : String)
    (h : validate_phone_number s = .ok t) :
    validate_phone_number t = .ok t :=
  (validate_ok_norm h).2

/-- Witness for C2: normalizing `"15551234567"` gives `"+15551234567"`,
which re-validates to itself. -/
theorem C2_normalization_idempotent_witness :
    validate_phone_number "15551234567" = .ok "+15551234567" ∧
    validate_phone_number "+15551234567" = .ok "+15551234567" :=
  ⟨by rfl, C2_normalization_idempotent "15551234567" "+15551234567" (by rfl)⟩

/-- Any send call issued by `execute` carries the stored sender and the
validator's output for the recipient. -/
lemma execute_sendCalls_mem {cmd : SendSMSCommand} {to_phone_number body : PyValue}
    {now : String} {c : SendCall}
    (hc : c ∈ (cmd.execute to_phone_number body now).sendCalls) :
    ∃ t, validate_phone_number (extract_value to_phone_number) = .ok t ∧
      c = { body := extract_value body, from_ := cmd.from_phone_number, «to» := t } := by
  simp only [SendSMSCommand.execute] at hc
  cases hv : validate_phone_number (extract_value to_phone_number) with
  | error m => simp only [hv] at hc; simp at hc
  | ok t =>
    simp only [hv] at hc
    refine ⟨t, rfl, ?_⟩
    cases hs : cmd.client.send (extract_value body) cmd.from_phone_number t with
    | ok sid st => simp only [hs] at hc; simpa using hc
    | twilioErr e => simp only [hs] at hc; simpa using hc
    | otherExc tn m => simp only [hs] at hc; simpa using hc

/-- **C3.** E.164 invariant: in every execution of a constructed command,
every send call issued to the provider uses the sender stored at
construction and a recipient returned by the validator, and both numbers
are accepted by the validator and carry a leading `+`. -/
theorem C3_e164_invariant (provider : Provider) (a b f : PyValue)
    (cmd : SendSMSCommand)
    (hinit : SendSMSCommand.init provider a b f = .ok cmd)
    (to_phone_number body : PyValue) (now : String) (c : SendCall)
    (hc : c ∈ (cmd.execute to_phone_number body now).sendCalls) :
    c.from_ = cmd.from_phone_number ∧
    startsWithPlus c.from_.data = true ∧
    startsWithPlus c.«to».data = true ∧
    validate_phone_number c.from_ = .ok c.from_ ∧
    validate_phone_number c.«to» = .ok c.«to» := by
  have hfromN := validate_ok_norm (init_ok_from hinit)
  obtain ⟨t, hv, hcall⟩ := execute_sendCalls_mem hc
  have htN := validate_ok_norm hv
  subst hcall
  exact ⟨rfl, hfromN.1, htN.1, hfromN.2, htN.2⟩

/-- Witness for C3: constructing against `stubOk` and sending to
`"+15551234567"`, the one issued call carries `+`-prefixed, validated
numbers. -/
theorem C3_e164_invariant_witness :
    startsWithPlus "+15551234567".data = true ∧
    validate_phone_number "+15551234567" = .ok "+15551234567" := by
  have h := C3_e164_invariant stubOk (.str "sid") (.str "tok")
      (.str "15551234567") cmdStub (by rfl)
      (.str "+15551234567") (.str "hello") "2024-01-01T00:00:00"
      { body := "hello", from_ := "+15551234567", «to» := "+15551234567" }
      (List.mem_singleton_self _)
  exact ⟨h.2.1, h.2.2.2.1⟩

/-- **C4.** Validate-before-call: on a recipient that fails E.164
validation, `execute` returns the 400 envelope tagged `ValueError` with the
validator's message, and `sendCalls` is empty — the provider's send is never
invoked. -/
theorem C4_validate_before_call (cmd : SendSMSCommand) (r : String)
    (body : PyValue) (now m : String)
    (h : validate_phone_number r = .error m) :
    cmd.execute (.str r) body now =
      { result :=
          { response := [("error_type", .s "ValueError"), ("error_message", .s m),
                         ("timestamp", .s now)]
            status := 400, mimetype := "application/json" }
        sendCalls := [] } := by
  simp only [SendSMSCommand.execute, extract_value, h]

/-- Witness for C4 at the recipient `"notanumber"`. -/
theorem C4_validate_before_call_witness :
    validate_phone_number "notanumber" =
      .error "Invalid phone number format: notanumber. Expected E.164 format (e.g., +1234567890)" ∧
    cmdStub.execute (.str "notanumber") (.str "hello") "2024-01-01T00:00:00" =
      { result :=
          { response :=
              [("error_type", .s "ValueError"),
               ("error_message",
                .s "Invalid phone number format: notanumber. Expected E.164 format (e.g., +1234567890)"),
               ("timestamp", .s "2024-01-01T00:00:00")]
            status := 400, mimetype := "application/json" }
        sendCalls := [] } :=
  ⟨by rfl,
   C4_validate_before_call cmdStub "notanumber" (.str "hello") "2024-01-01T00:00:00"
     "Invalid phone number format: notanumber. Expected E.164 format (e.g., +1234567890)"
     (by rfl)⟩

/-- **C5.** Provider rejection: when the recipient validates and the send
call raises a `TwilioRestException` with numeric code and message, `execute`
returns (never raises) the 400 envelope tagged `TwilioRestException` —
the specification's ProviderError category — carrying that code and
message. -/
theorem C5_provider_rejection (cmd : SendSMSCommand) (to_phone_number body : PyValue)
    (now t : String) (e : TwilioErr)
    (hv : validate_phone_number (extract_value to_phone_number) = .ok t)
    (hs : cmd.client.send (extract_value body) cmd.from_phone_number t = .twilioErr e) :
    cmd.execute to_phone_number body now =
      { result :=
          { response :=
              [("error_type", .s "TwilioRestException"), ("error_code", .i e.code),
               ("error_message", .s e.msg), ("timestamp", .s now)]
            status := 400, mimetype := "application/json" }
        sendCalls := [{ body := extract_value body, from_ := cmd.from_phone_number, «to» := t }] } := by
  simp only [SendSMSCommand.execute, hv, hs]

/-- Witness for C5 with a stub provider rejecting with code 21211
("invalid To number"). -/
theorem C5_provider_rejection_witness :
    validate_phone_number "+15559990000" = .ok "+15559990000" ∧
    cmdReject.execute (.str "+15559990000") (.str "hello") "2024-01-01T00:00:00" =
      { result :=
          { response :=
              [("error_type", .s "TwilioRestException"), ("error_code", .i 21211),
               ("error_message", .s "invalid To number"),
               ("timestamp", .s "2024-01-01T00:00:00")]
            status := 400, mimetype := "application/json" }
        sendCalls := [{ body := "hello", from_ := "+15551234567", «to» := "+15559990000" }] } :=
  ⟨by rfl,
   C5_provider_rejection cmdReject (.str "+15559990000") (.str "hello")
     "2024-01-01T00:00:00" "+15559990000"
     ⟨21211, "invalid To number", "HTTP 400: 21211"⟩ (by rfl) (by rfl)⟩

/-- **C6.** Catch-all totality: when the send call raises an exception that
is neither a `TwilioRestException` nor a `ValueError`, `execute` returns
(never raises) the 500 envelope whose `error_type` is the exception's class
name and whose `error_message` is its message. -/
theorem C6_catch_all (cmd : SendSMSCommand) (to_phone_number body : PyValue)
    (now t typeName m : String)
    (hv : validate_phone_number (extract_value to_phone_number) = .ok t)
    (hs : cmd.client.send (extract_value body) cmd.from_phone_number t =
      .otherExc typeName m) :
    cmd.execute to_phone_number body now =
      { result :=
          { response :=
              [("error_type", .s typeName), ("error_message", .s m),
               ("timestamp", .s now)]
            status := 500, mimetype := "application/json" }
        sendCalls := [{ body := extract_value body, from_ := cmd.from_phone_number, «to» := t }] } := by
  simp only [SendSMSCommand.execute, hv, hs]

/-- Witness for C6 with a stub provider whose send raises a
`ConnectionError`. -/
theorem C6_catch_all_witness :
    validate_phone_number "+15559990000" = .ok "+15559990000" ∧
    cmdCrash.execute (.str "+15559990000") (.str "hello") "2024-01-01T00:00:00" =
      { result :=
          { response :=
              [("error_type", .s "ConnectionError"),
               ("error_message", .s "connection reset"),
               ("timestamp", .s "2024-01-01T00:00:00")]
            status := 500, mimetype := "application/json" }
        sendCalls := [{ body := "hello", from_ := "+15551234567", «to» := "+15559990000" }] } :=
  ⟨by rfl,
   C6_catch_all cmdCrash (.str "+15559990000") (.str "hello")
     "2024-01-01T00:00:00" "+15559990000" "ConnectionError" "connection reset"
     (by rfl) (by rfl)⟩

/-- **C7.** Fail-fast construction: when the sender number validates but the
provider rejects the construction-time credential fetch, `__init__` fails —
no command instance is produced, so `execute` is unreachable — raising the
`ValueError` that wraps the provider's rejection (the specification's
ConfigurationError). -/
theorem C7_failfast_construction (provider : Provider) (a b f : PyValue)
    (e : TwilioErr) (t : String)
    (hf : provider.fetchOutcome = some e)
    (hok : validate_phone_number (extract_value f) = .ok t) :
    SendSMSCommand.init provider a b f =
      .error (.configurationError ("Invalid Twilio credentials: " ++ e.strRepr)) := by
  simp only [SendSMSCommand.init, hok, hf]

/-- Witness for C7 with a stub provider rejecting authentication. -/
theorem C7_failfast_construction_witness :
    stubBadAuth.fetchOutcome =
      some ⟨20003, "Authenticate", "HTTP 401: 20003 Authenticate"⟩ ∧
    validate_phone_number "15551234567" = .ok "+15551234567" ∧
    SendSMSCommand.init stubBadAuth (.str "sid") (.str "tok") (.str "15551234567") =
      .error (.configurationError
        "Invalid Twilio credentials: HTTP 401: 20003 Authenticate") :=
  ⟨rfl, by rfl,
   C7_failfast_construction stubBadAuth (.str "sid") (.str "tok")
     (.str "15551234567") ⟨20003, "Authenticate", "HTTP 401: 20003 Authenticate"⟩
     "+15551234567" rfl (by rfl)⟩

/-- **C8.** Success shape: when the recipient validates and the provider
send succeeds with a message id and status, `execute` returns the 200
envelope containing exactly the provider's message id, the normalized
recipient, the normalized (stored) sender, the provider's status, the
generation timestamp of this run, and the confirmation string naming the
normalized recipient; both numbers carry a leading `+`. -/
theorem C8_success_shape (provider : Provider) (a b f : PyValue)
    (cmd : SendSMSCommand)
    (hinit : SendSMSCommand.init provider a b f = .ok cmd)
    (to_phone_number body : PyValue) (now t sid st : String)
    (hv : validate_phone_number (extract_value to_phone_number) = .ok t)
    (hs : cmd.client.send (extract_value body) cmd.from_phone_number t = .ok sid st) :
    cmd.execute to_phone_number body now =
      { result :=
          { response :=
              [("message_sid", .s sid), ("to", .s t),
               ("from", .s cmd.from_phone_number), ("status_code", .s st),
               ("timestamp", .s now),
               ("details", .s ("Message sent to " ++ t))]
            status := 200, mimetype := "application/json" }
        sendCalls := [{ body := extract_value body, from_ := cmd.from_phone_number, «to» := t }] } ∧
    startsWithPlus t.data = true ∧
    startsWithPlus cmd.from_phone_number.data = true := by
  refine ⟨?_, (validate_ok_norm hv).1, (validate_ok_norm (init_ok_from hinit)).1⟩
  simp only [SendSMSCommand.execute, hv, hs]

/-- Witness for C8: the stub provider echoes id `"SM123"` and status
`"queued"`; `execute("+15551234567", "hello")` yields the matching Success
envelope. -/
theorem C8_success_shape_witness :
    validate_phone_number "+15551234567" = .ok "+15551234567" ∧
    cmdStub.execute (.str "+15551234567") (.str "hello") "2024-01-01T00:00:00" =
      { result :=
          { response :=
              [("message_sid", .s "SM123"), ("to", .s "+15551234567"),
               ("from", .s "+15551234567"), ("status_code", .s "queued"),
               ("timestamp", .s "2024-01-01T00:00:00"),
               ("details", .s "Message sent to +15551234567")]
            status := 200, mimetype := "application/json" }
        sendCalls := [{ body := "hello", from_ := "+15551234567", «to» := "+15551234567" }] } :=
  ⟨by rfl,
   (C8_success_shape stubOk (.str "sid") (.str "tok") (.str "15551234567")
     cmdStub (by rfl) (.str "+15551234567") (.str "hello")
     "2024-01-01T00:00:00" "+15551234567" "SM123" "queued" (by rfl) (by rfl)).1⟩

/-- The probing loop of `_extract_value` computes the first string obtained
over the attribute names, in order. -/
lemma probeLoop_eq_findSome (attrs : List (String × AttrVal)) :
    ∀ names : List String,
      probeLoop attrs names = names.findSome? fun n => (attrs.lookup n).bind attrString
  | [] => rfl
  | name :: rest => by
    rw [List.findSome?_cons]
    cases hl : attrs.lookup name with
    | none => simp only [probeLoop, hl, Option.none_bind]
              exact probeLoop_eq_findSome attrs rest
    | some av =>
      cases av with
      | strA s => simp [probeLoop, hl, attrString]
      | otherA => simp only [probeLoop, hl, Option.some_bind, attrString]
                  exact probeLoop_eq_findSome attrs rest
      | callA r =>
        match r with
        | none => simp only [probeLoop, hl, Option.some_bind, attrString]
                  exact probeLoop_eq_findSome attrs rest
        | some none => simp only [probeLoop, hl, Option.some_bind, attrString]
                       exact probeLoop_eq_findSome attrs rest
        | some (some s) => simp [probeLoop, hl, attrString]

/-- **C9.** `_extract_value` is the identity on strings; on `int`, `float`
and `bool` it is Python's `str` rendering; and on wrapper objects it probes
`value`, `_value`, `data`, `_data`, `get_value` in that order, returning the
first string obtained (directly, or by calling a callable attribute),
falling back to `str(value)`. -/
theorem C9_extract_value_contract :
    (∀ s, extract_value (.str s) = s) ∧
    (∀ n : Int, extract_value (.int n) = pyStr (.int n)) ∧
    (∀ r, extract_value (.float r) = pyStr (.float r)) ∧
    (∀ b, extract_value (.bool b) = pyStr (.bool b)) ∧
    (∀ attrs strRepr,
      extract_value (.obj attrs strRepr) = (firstProbedString attrs).getD strRepr) := by
  refine ⟨fun s => rfl, fun n => rfl, fun r => rfl, fun b => rfl,
    fun attrs strRepr => ?_⟩
  simp only [extract_value, firstProbedString, probeLoop_eq_findSome]

/-- **C10.** Result envelope invariant: every result of `execute` has
exactly the top-level fields `response`/`status`/`mimetype` (enforced by the
`CommandResultDict` type), `mimetype` is always `"application/json"`, the
nested `response` mapping always contains a `"timestamp"` field (holding
this run's timestamp), and `status` is 200 on success, 400 on provider
rejection or validation failure, and 500 on any other exception. -/
theorem C10_result_envelope (cmd : SendSMSCommand)
    (to_phone_number body : PyValue) (now : String) :
    (cmd.execute to_phone_number body now).result.mimetype = "application/json" ∧
    (cmd.execute to_phone_number body now).result.response.lookup "timestamp" =
      some (.s now) ∧
    (cmd.execute to_phone_number body now).result.status =
      (match validate_phone_number (extract_value to_phone_number) with
       | .error _ => 400
       | .ok t =>
         match cmd.client.send (extract_value body) cmd.from_phone_number t with
         | .ok _ _ => 200
         | .twilioErr _ => 400
         | .otherExc _ _ => 500) := by
  cases hv : validate_phone_number (extract_value to_phone_number) with
  | error m =>
    simp [SendSMSCommand.execute, hv, List.lookup]
  | ok t =>
    cases hs : cmd.client.send (extract_value body) cmd.from_phone_number t with
    | ok sid st =>
      simp [SendSMSCommand.execute, hv, hs, List.lookup]
    | twilioErr e =>
      simp [SendSMSCommand.execute, hv, hs, List.lookup]
    | otherExc tn m =>
      simp [SendSMSCommand.execute, hv, hs, List.lookup]

end ConnectorTwilio
